import Mathlib

/-!
Shallow embedding of the audio streaming pipeline in
`src/livekit/src/tests/test-rtc-input.py`: the `AudioStreamer` class
(`connect`, `play_file`, `disconnect`) and the interactive `main` loop.

Modelling conventions:
- A byte of the decoder's stdout stream is a `Fin 256`.
- `np.frombuffer(data, dtype=np.int16)` / `.tobytes()` are modelled as
  little-endian 16-bit signed conversions (`frombuffer_int16`,
  `tobytes_int16`); `np.frombuffer` fails on a buffer whose length is not
  a multiple of 2, hence the `Option`.
- The external collaborators (the rtc room, the published track, the
  decoder subprocess, `audio_source.capture_frame`) are modelled by their
  observable effects: an `ExtAction` trace, a final `ProcState`, and a
  `sink : Nat → Bool` giving the outcome of the i-th `capture_frame` call.
- `process.stdout.read(n)` on the buffered pipe returns `n` bytes unless
  end-of-stream is reached, so reading the whole stream splits it into
  consecutive chunks of `bytes_per_frame` bytes with only the final chunk
  possibly shorter (`readChunks`).
-/

/-- One observable effect on an external collaborator. -/
inductive ExtAction where
  | constructStreamer
  | roomConnect
  | createTrack
  | publishTrack
  | roomDisconnect
deriving DecidableEq, Repr

/-- Final state of the spawned ffmpeg decoder process: `terminated` means
`process.terminate()` followed by `process.wait()` has run. -/
inductive ProcState where
  | running
  | terminated
deriving DecidableEq, Repr

/-- Errors that `connect` can raise. -/
inductive ConnectError where
  | missingCredentials
  | transportError
  | publishError
deriving DecidableEq, Repr

/-- Errors that `play_file` can raise. -/
inductive PlayError where
  | notConnected
  | bufferError
  | sinkError
deriving DecidableEq, Repr

/-- The mutable state of an `AudioStreamer` instance (`__init__` sets
`is_connected = False`, `is_publishing = False`, `current_track = None`).
The `rtc.Room` and `rtc.AudioSource` objects are external collaborators
and carry no state the embedded code reads. -/
structure AudioStreamer where
  room_name : String
  is_connected : Bool
  is_publishing : Bool
  current_track : Option Nat
deriving DecidableEq, Repr

/-- Environment seen by `connect`: the three `os.environ` lookups plus the
outcomes of the two awaited external operations (`room.connect` and
`publish_track`). -/
structure Env where
  livekit_url : Option String
  livekit_api_key : Option String
  livekit_api_secret : Option String
  room_connect_ok : Bool
  publish_ok : Bool
deriving DecidableEq, Repr

/-- Python truthiness of an `os.environ.get` result: `None` and the empty
string are falsy (this is what `all([...])` tests). -/
def pyTruthy : Option String → Bool
  | none => false
  | some s => !(s == "")

/-- `AudioStreamer.connect`: early-return when already connected; raise
`ValueError` when credentials are missing; connect the room, set
`is_connected`, create and record the track, publish it, set
`is_publishing`.  Returns (raised error, state after the call, actions
attempted on external collaborators). -/
def AudioStreamer.connect (env : Env) (s : AudioStreamer) :
    Option ConnectError × AudioStreamer × List ExtAction :=
  if s.is_connected then
    (none, s, [])
  else if !(pyTruthy env.livekit_url && pyTruthy env.livekit_api_key &&
      pyTruthy env.livekit_api_secret) then
    (some .missingCredentials, s, [])
  else if !env.room_connect_ok then
    (some .transportError, s, [.roomConnect])
  else
    let s2 : AudioStreamer :=
      { s with is_connected := true, current_track := some 0 }
    if !env.publish_ok then
      (some .publishError, s2, [.roomConnect, .createTrack, .publishTrack])
    else
      (none, { s2 with is_publishing := true },
        [.roomConnect, .createTrack, .publishTrack])

/-- `AudioStreamer.disconnect`: only acts when `is_connected`. -/
def AudioStreamer.disconnect (s : AudioStreamer) :
    AudioStreamer × List ExtAction :=
  if s.is_connected then
    ({ s with is_connected := false }, [.roomDisconnect])
  else
    (s, [])

/-- `frame_size = 480  # 20ms at 24kHz` -/
def frame_size : Nat := 480

/-- `bytes_per_frame = frame_size * 2  # 16-bit = 2 bytes per sample` -/
def bytes_per_frame : Nat := frame_size * 2

/-- One `rtc.AudioFrame` as constructed in `play_file`. -/
structure AudioFrame where
  data : List (Fin 256)
  sample_rate : Nat
  num_channels : Nat
  samples_per_channel : Nat
deriving DecidableEq, Repr

/-- The signed 16-bit sample encoded little-endian by bytes `lo`, `hi`. -/
def int16OfBytes (lo hi : Fin 256) : Int :=
  let u : Nat := lo.val + 256 * hi.val
  if u < 32768 then (u : Int) else (u : Int) - 65536

/-- `np.frombuffer(data, dtype=np.int16)`: reinterpret the byte buffer as
an array of little-endian signed 16-bit samples; `ValueError` (modelled as
`none`) when the length is not a multiple of the 2-byte item size. -/
def frombuffer_int16 : List (Fin 256) → Option (List Int)
  | [] => some []
  | [_] => none
  | lo :: hi :: rest =>
    match frombuffer_int16 rest with
    | none => none
    | some ss => some (int16OfBytes lo hi :: ss)

/-- The two little-endian bytes of a 16-bit sample (two's complement). -/
def int16ToBytes (s : Int) : List (Fin 256) :=
  let u : Nat := (s % 65536).toNat
  [⟨u % 256, Nat.mod_lt _ (by decide)⟩,
   ⟨u / 256 % 256, Nat.mod_lt _ (by decide)⟩]

/-- `audio_data.tobytes()` for an int16 array. -/
def tobytes_int16 (ss : List Int) : List (Fin 256) :=
  (ss.map int16ToBytes).flatten

/-- The body of one loop iteration in `play_file` on a non-empty `data`
chunk: `np.frombuffer`, `np.pad` when shorter than `frame_size`, and the
`rtc.AudioFrame` construction.  `none` models the `ValueError` raised by
`np.frombuffer` on an odd-length buffer. -/
def processChunk (chunk : List (Fin 256)) : Option AudioFrame :=
  match frombuffer_int16 chunk with
  | none => none
  | some audio_data =>
    let padded :=
      if audio_data.length < frame_size then
        audio_data ++ List.replicate (frame_size - audio_data.length) 0
      else audio_data
    some { data := tobytes_int16 padded, sample_rate := 24000,
           num_channels := 1, samples_per_channel := frame_size }

/-- Fuel-indexed splitting of the decoder's byte stream into the chunks
returned by successive `process.stdout.read(bytes_per_frame)` calls. -/
def readChunksAux : Nat → List (Fin 256) → List (List (Fin 256))
  | 0, _ => []
  | _, [] => []
  | fuel + 1, bs =>
    bs.take bytes_per_frame :: readChunksAux fuel (bs.drop bytes_per_frame)

/-- The chunks returned by successive `process.stdout.read(bytes_per_frame)`
calls on a stream: consecutive `bytes_per_frame`-byte slices, the last one
possibly shorter, and nothing once the stream is empty (`if not data: break`). -/
def readChunks (bs : List (Fin 256)) : List (List (Fin 256)) :=
  readChunksAux bs.length bs

/-- The `while True` loop of `play_file`, iterating over the read chunks:
each chunk is converted to a frame (a conversion error aborts the loop) and
pushed through `audio_source.capture_frame`, whose outcome for the i-th
frame is `sink i` (`false` models a raised sink/cancellation error).
Returns (raised error, frames accepted by the sink in order). -/
def playChunks (sink : Nat → Bool) :
    List (List (Fin 256)) → Nat → Option PlayError × List AudioFrame
  | [], _ => (none, [])
  | c :: cs, i =>
    match processChunk c with
    | none => (some .bufferError, [])
    | some frame =>
      if sink i then
        let r := playChunks sink cs (i + 1)
        (r.1, frame :: r.2)
      else
        (some .sinkError, [])

/-- Result of one `play_file` call: the raised error (`none` = returned
normally), the frames delivered to the sink, the final state of the decoder
process (`none` = never spawned), and the streamer state after the call. -/
structure PlayResult where
  outcome : Option PlayError
  frames : List AudioFrame
  proc : Option ProcState
  state : AudioStreamer
deriving DecidableEq, Repr

/-- `AudioStreamer.play_file`: raise `RuntimeError` when not connected
(before spawning anything); otherwise spawn the ffmpeg process, run the
read/pad/capture loop over its output `stream`, and in all cases run the
`finally` block (`process.terminate(); process.wait()`).  `returncode` is
the decoder process's exit status; the code never consults it.  The
duration probe (`ffprobe`) only logs and is omitted.  `play_file` never
writes any attribute of `self`. -/
def AudioStreamer.play_file (s : AudioStreamer) (stream : List (Fin 256))
    (returncode : Int) (sink : Nat → Bool) : PlayResult :=
  if s.is_connected then
    let r := playChunks sink (readChunks stream) 0
    { outcome := r.1, frames := r.2, proc := some .terminated, state := s }
  else
    { outcome := some .notConnected, frames := [], proc := none, state := s }

/-- The whitespace characters stripped by Python's `str.strip()` (the
Unicode whitespace set). -/
def pyIsSpace (c : Char) : Bool :=
  c == ' ' || c == '\t' || c == '\n' || c == '\r' ||
  c == Char.ofNat 0x0b || c == Char.ofNat 0x0c ||
  c == Char.ofNat 0x1c || c == Char.ofNat 0x1d ||
  c == Char.ofNat 0x1e || c == Char.ofNat 0x1f ||
  c == Char.ofNat 0x85 || c == Char.ofNat 0xa0 ||
  c == Char.ofNat 0x1680 ||
  (Char.ofNat 0x2000 ≤ c && c ≤ Char.ofNat 0x200a) ||
  c == Char.ofNat 0x2028 || c == Char.ofNat 0x2029 ||
  c == Char.ofNat 0x202f || c == Char.ofNat 0x205f ||
  c == Char.ofNat 0x3000

/-- Python `str.strip()`: remove leading and trailing whitespace. -/
def pyStrip (t : String) : String :=
  ⟨(((t.data.dropWhile pyIsSpace).reverse).dropWhile pyIsSpace).reverse⟩

/-- Python `str.lower()` restricted to the ASCII range (for characters
outside `A`–`Z` the result can differ from Python on exotic uppercase
letters, none of which lowercases to the one-character string `"q"` that
the loop compares against). -/
def pyLowerChar (c : Char) : Char :=
  if 'A' ≤ c && c ≤ 'Z' then Char.ofNat (c.toNat + 32) else c

/-- Python `str.lower()` (ASCII model, see `pyLowerChar`). -/
def pyLower (t : String) : String :=
  ⟨t.data.map pyLowerChar⟩

/-- The loop's quit test: `input_value.strip().lower() == "q"`. -/
def isQuit (input_value : String) : Bool :=
  pyLower (pyStrip input_value) == "q"

/-- How the `while True` loop in `main` ends: a clean `break` on the quit
token, an exception escaping from `play_file`, or `input` raising
`EOFError` once stdin is exhausted. -/
inductive LoopExit where
  | quit
  | playFailed (e : PlayError)
  | inputExhausted
deriving DecidableEq, Repr

/-- The `while True` loop in `main` over the list of lines read at the
prompt; `playResult k` is the outcome of the k-th `play_file` invocation
(`none` = returned normally, `some e` = raised `e`, which escapes the loop
since nothing catches it).  Returns (how the loop ended, number of
`play_file` invocations). -/
def mainLoop (playResult : Nat → Option PlayError) :
    List String → Nat → LoopExit × Nat
  | [], _ => (.inputExhausted, 0)
  | input_value :: rest, k =>
    if isQuit input_value then
      (.quit, 0)
    else
      match playResult k with
      | some e => (.playFailed e, 1)
      | none =>
        let r := mainLoop playResult rest (k + 1)
        (r.1, r.2 + 1)

/-- The `try`/`finally` of `main` after a successful `connect`: run the
interactive loop, then run `streamer.disconnect()` in the `finally` block
on every exit path.  Returns (loop exit, number of `play_file`
invocations, streamer state after the `finally`, disconnect actions). -/
def mainAfterConnect (s : AudioStreamer) (lines : List String)
    (playResult : Nat → Option PlayError) :
    LoopExit × Nat × AudioStreamer × List ExtAction :=
  let r := mainLoop playResult lines 0
  let d := s.disconnect
  (r.1, r.2, d.1, d.2)

/-- Errors `main` raises before the `try` block. -/
inductive StartupError where
  | inputFileNotFound
  | emptyRoomName
deriving DecidableEq, Repr

/-- The startup section of `main`: check `os.path.isfile(args.input_file)`,
read and strip the room name, reject an empty result, and only then
construct `AudioStreamer(room_name)` (whose `__init__` sets the initial
state). -/
def mainStartup (input_file_exists : Bool) (room_name_input : String) :
    Except StartupError AudioStreamer :=
  if !input_file_exists then
    .error .inputFileNotFound
  else
    let room_name := pyStrip room_name_input
    if room_name == "" then
      .error .emptyRoomName
    else
      .ok { room_name := room_name, is_connected := false,
            is_publishing := false, current_track := none }

/-- Exit status of `asyncio.run(main())`: 0 when `main` returns, non-zero
when an exception escapes it. -/
def processExitCode : LoopExit → Nat
  | .quit => 0
  | .playFailed _ => 1
  | .inputExhausted => 1

/-- The whole of `main`: startup checks, streamer construction, `connect`,
the interactive loop, and the `finally` disconnect; an exception at any
stage escapes and the process exits non-zero.  Returns (process exit code,
trace of actions on external collaborators). -/
def main_model (input_file_exists : Bool) (room_name_input : String)
    (env : Env) (lines : List String)
    (playResult : Nat → Option PlayError) : Nat × List ExtAction :=
  match mainStartup input_file_exists room_name_input with
  | .error _ => (1, [])
  | .ok s =>
    match s.connect env with
    | (some _, s1, acts) =>
      let d := s1.disconnect
      (1, ExtAction.constructStreamer :: (acts ++ d.2))
    | (none, s1, acts) =>
      let r := mainAfterConnect s1 lines playResult
      (processExitCode r.1, ExtAction.constructStreamer :: (acts ++ r.2.2.2))

/-- C4: on every execution of `play_file` — normal completion, read error,
or sink-rejection/cancellation error — the `finally` block has terminated
and waited for the spawned decoder process before `play_file` returns, so
the decoder process is never left running (it is `terminated`, or was
never spawned on the not-connected early-raise path). -/
theorem C4_decoder_process_not_running (s : AudioStreamer)
    (stream : List (Fin 256)) (returncode : Int) (sink : Nat → Bool) :
    (s.play_file stream returncode sink).proc = some ProcState.terminated ∨
    (s.play_file stream returncode sink).proc = none := by
  by_cases h : s.is_connected <;>
    simp [AudioStreamer.play_file, h]

/-- A later call on an `AudioStreamer` instance: another `connect` or a
`play_file`. -/
inductive SessionOp where
  | connectOp (env : Env)
  | playOp (stream : List (Fin 256)) (returncode : Int) (sink : Nat → Bool)

/-- Run a sequence of `connect`/`play_file` calls on a streamer, threading
the state and collecting every action attempted on an external
collaborator. -/
def runOps : AudioStreamer → List SessionOp → AudioStreamer × List ExtAction
  | s, [] => (s, [])
  | s, .connectOp env :: ops =>
    let r := s.connect env
    let rest := runOps r.2.1 ops
    (rest.1, r.2.2 ++ rest.2)
  | s, .playOp stream returncode sink :: ops =>
    let r := s.play_file stream returncode sink
    let rest := runOps r.state ops
    (rest.1, rest.2)

/-- C5: calling `connect` on an already-connected session raises nothing,
performs no action on any external collaborator (no connection attempt, no
track creation, no publish), and leaves the state unchanged; consequently,
once a session is connected, any further sequence of `connect` and
`play_file` calls leaves the whole session state (in particular the
published-track handle `current_track`) unchanged and attempts no further
external action — the track is created and published exactly once per
instance and reused across all subsequent playbacks. -/
theorem C5_connect_already_connected_noop (env : Env) (s : AudioStreamer)
    (ops : List SessionOp) (h : s.is_connected = true) :
    s.connect env = (none, s, []) ∧
    runOps s ops = (s, []) := by
  constructor
  · simp [AudioStreamer.connect, h]
  · induction ops with
    | nil => rfl
    | cons op rest ih =>
      cases op with
      | connectOp env' =>
        simp only [runOps, AudioStreamer.connect, h, if_true]
        simp [ih]
      | playOp stream returncode sink =>
        simp only [runOps, AudioStreamer.play_file, h, if_true]
        simp [ih]

/-- C5 witness at a concrete connected streamer with a subsequent
redundant `connect` and a `play_file`. -/
theorem C5_witness :
    (({ room_name := "r", is_connected := true, is_publishing := true,
        current_track := some 0 } : AudioStreamer).is_connected = true) ∧
    (({ room_name := "r", is_connected := true, is_publishing := true,
        current_track := some 0 } : AudioStreamer).connect
        { livekit_url := none, livekit_api_key := none,
          livekit_api_secret := none, room_connect_ok := false,
          publish_ok := false } =
      (none, { room_name := "r", is_connected := true, is_publishing := true,
               current_track := some 0 }, []) ∧
     runOps
       { room_name := "r", is_connected := true, is_publishing := true,
         current_track := some 0 }
       [SessionOp.connectOp
          { livekit_url := none, livekit_api_key := none,
            livekit_api_secret := none, room_connect_ok := false,
            publish_ok := false },
        SessionOp.playOp [] 0 (fun _ => true)] =
      ({ room_name := "r", is_connected := true, is_publishing := true,
         current_track := some 0 }, [])) :=
  ⟨rfl, C5_connect_already_connected_noop _ _ _ rfl⟩

/-- C6: `play_file` on a session that is not connected raises
`RuntimeError` before spawning any decoder process (`proc = none`) and
before pushing any frame (`frames = []`), and leaves the session state
unchanged. -/
theorem C6_play_file_requires_connect (s : AudioStreamer)
    (stream : List (Fin 256)) (returncode : Int) (sink : Nat → Bool)
    (h : s.is_connected = false) :
    s.play_file stream returncode sink =
      { outcome := some PlayError.notConnected, frames := [], proc := none,
        state := s } := by
  simp [AudioStreamer.play_file, h]

/-- C6 witness at a concrete disconnected streamer. -/
theorem C6_witness :
    (({ room_name := "r", is_connected := false, is_publishing := false,
        current_track := none } : AudioStreamer).is_connected = false) ∧
    ({ room_name := "r", is_connected := false, is_publishing := false,
       current_track := none } : AudioStreamer).play_file
        (List.replicate 4 0) 0 (fun _ => true) =
      { outcome := some PlayError.notConnected, frames := [], proc := none,
        state := { room_name := "r", is_connected := false,
                   is_publishing := false, current_track := none } } :=
  ⟨rfl, C6_play_file_requires_connect _ _ 0 (fun _ => true) rfl⟩

/-- C7: a failing `play_file` call on a connected session leaves the
session connected with its published-track handle unchanged (in fact
`play_file` never writes any attribute of the streamer), so a subsequent
`play_file` needs no reconnect. -/
theorem C7_failure_leaves_session_connected (s : AudioStreamer)
    (stream : List (Fin 256)) (returncode : Int) (sink : Nat → Bool)
    (e : PlayError) (hc : s.is_connected = true)
    (_he : (s.play_file stream returncode sink).outcome = some e) :
    (s.play_file stream returncode sink).state.is_connected = true ∧
    (s.play_file stream returncode sink).state.current_track =
      s.current_track := by
  simp [AudioStreamer.play_file, hc]

/-- C7 witness: a connected streamer, a 1-byte stream (the odd buffer
length makes `np.frombuffer` raise), the call fails yet the state stays
connected with the same track handle. -/
theorem C7_witness :
    (({ room_name := "r", is_connected := true, is_publishing := true,
        current_track := some 0 } : AudioStreamer).is_connected = true ∧
     (({ room_name := "r", is_connected := true, is_publishing := true,
         current_track := some 0 } : AudioStreamer).play_file [0] 0
         (fun _ => true)).outcome = some PlayError.bufferError) ∧
    ((({ room_name := "r", is_connected := true, is_publishing := true,
         current_track := some 0 } : AudioStreamer).play_file [0] 0
         (fun _ => true)).state.is_connected = true ∧
     (({ room_name := "r", is_connected := true, is_publishing := true,
         current_track := some 0 } : AudioStreamer).play_file [0] 0
         (fun _ => true)).state.current_track = some 0) :=
  ⟨⟨rfl, by decide⟩,
   C7_failure_leaves_session_connected _ [0] 0 (fun _ => true)
     PlayError.bufferError rfl (by decide)⟩

/-- C8: `disconnect` on a not-connected session is a no-op (no error, no
action on the transport, state unchanged); after any `disconnect` the
session is not connected; and a second `disconnect` immediately after a
first performs no action at all, so nothing is released twice. -/
theorem C8_disconnect_idempotent (s : AudioStreamer) :
    AudioStreamer.disconnect { s with is_connected := false } =
      ({ s with is_connected := false }, []) ∧
    s.disconnect.1.is_connected = false ∧
    s.disconnect.1.disconnect = (s.disconnect.1, []) := by
  refine ⟨by simp [AudioStreamer.disconnect], ?_, ?_⟩ <;>
    by_cases h : s.is_connected <;>
      simp [AudioStreamer.disconnect, h]

/-- Helper: with every `play_file` invocation returning normally, the loop
quits iff some line passes the quit test, and invokes `play_file` once per
line before the first quit line. -/
theorem mainLoop_all_plays_ok (lines : List String) (k : Nat) :
    mainLoop (fun _ => none) lines k =
      ((if lines.any isQuit then LoopExit.quit else LoopExit.inputExhausted),
       (lines.takeWhile (fun l => !(isQuit l))).length) := by
  induction lines generalizing k with
  | nil => simp [mainLoop]
  | cons l rest ih =>
    by_cases hq : isQuit l <;>
      simp [mainLoop, hq, ih (k + 1)]

/-- C9: the control loop quits exactly when some prompt line satisfies the
quit test `input_value.strip().lower() == "q"` (it quits at the first such
line), and triggers exactly one `play_file` invocation for every line
before that — empty or arbitrary non-empty text alike. -/
theorem C9_quit_iff_q (lines : List String) :
    ((mainLoop (fun _ => none) lines 0).1 = LoopExit.quit ↔
      lines.any isQuit = true) ∧
    (mainLoop (fun _ => none) lines 0).2 =
      (lines.takeWhile (fun l => !(isQuit l))).length := by
  rw [mainLoop_all_plays_ok]
  by_cases h : lines.any isQuit <;> simp [h]

/-- C3 counterexample: with the first `play_file` invocation raising a
sink error and a `"q"` line still waiting at the prompt, the loop does not
return to the prompt (the exit is `playFailed`, not `quit`, and only one
line was consumed) and the process exits non-zero — the claim that the
loop logs the error and keeps prompting is false. -/
theorem C3_counterexample :
    mainLoop (fun _ => some PlayError.sinkError) ["", "q"] 0 =
      (LoopExit.playFailed PlayError.sinkError, 1) ∧
    (mainLoop (fun _ => some PlayError.sinkError) ["", "q"] 0).1 ≠
      LoopExit.quit ∧
    processExitCode
      (mainLoop (fun _ => some PlayError.sinkError) ["", "q"] 0).1 ≠ 0 := by
  decide

/-- C3 amended: nothing in the loop catches an error raised by
`play_file`, so the first failing invocation terminates the loop at once
(no further prompt is read), the `finally` block disconnects the streamer,
and the process exits non-zero: a playback failure is fatal, not
recoverable. -/
theorem C3_play_error_terminates_loop (s : AudioStreamer) (l : String)
    (rest : List String) (playResult : Nat → Option PlayError)
    (e : PlayError) (hq : isQuit l = false)
    (hp : playResult 0 = some e) :
    mainAfterConnect s (l :: rest) playResult =
      (LoopExit.playFailed e, 1, s.disconnect.1, s.disconnect.2) ∧
    processExitCode (mainAfterConnect s (l :: rest) playResult).1 ≠ 0 := by
  simp [mainAfterConnect, mainLoop, hq, hp, processExitCode]

/-- C3 amended witness: concrete failing first play with a quit line
still pending. -/
theorem C3_witness :
    (isQuit "" = false ∧
     (fun _ : Nat => some PlayError.sinkError) 0 =
       some PlayError.sinkError) ∧
    (mainAfterConnect
        { room_name := "r", is_connected := true, is_publishing := true,
          current_track := some 0 } ["", "q"]
        (fun _ => some PlayError.sinkError) =
      (LoopExit.playFailed PlayError.sinkError, 1,
       AudioStreamer.disconnect
         { room_name := "r", is_connected := true, is_publishing := true,
           current_track := some 0 } |>.1,
       AudioStreamer.disconnect
         { room_name := "r", is_connected := true, is_publishing := true,
           current_track := some 0 } |>.2) ∧
     processExitCode
       (mainAfterConnect
         { room_name := "r", is_connected := true, is_publishing := true,
           current_track := some 0 } ["", "q"]
         (fun _ => some PlayError.sinkError)).1 ≠ 0) :=
  ⟨⟨by decide, rfl⟩,
   C3_play_error_terminates_loop _ "" ["q"] (fun _ => some PlayError.sinkError)
     PlayError.sinkError (by decide) rfl⟩

/-- C10: when the entered room name is empty after stripping whitespace,
`main` raises before constructing the streamer and before any action on an
external collaborator (in particular before any connection attempt), and
the process exits non-zero. -/
theorem C10_empty_room_name (input_file_exists : Bool)
    (room_name_input : String) (env : Env) (lines : List String)
    (playResult : Nat → Option PlayError)
    (h : pyStrip room_name_input = "") :
    (∃ e, mainStartup input_file_exists room_name_input = Except.error e) ∧
    main_model input_file_exists room_name_input env lines playResult =
      (1, []) := by
  cases input_file_exists with
  | false =>
    exact ⟨⟨StartupError.inputFileNotFound, by simp [mainStartup]⟩,
      by simp [main_model, mainStartup]⟩
  | true =>
    refine ⟨⟨StartupError.emptyRoomName, ?_⟩, ?_⟩ <;>
      simp [main_model, mainStartup, h]

/-- C10 witness: a whitespace-only room name. -/
theorem C10_witness :
    pyStrip "  " = "" ∧
    ((∃ e, mainStartup true "  " = Except.error e) ∧
     main_model true "  "
       { livekit_url := some "u", livekit_api_key := some "k",
         livekit_api_secret := some "s", room_connect_ok := true,
         publish_ok := true } [] (fun _ => none) = (1, [])) :=
  ⟨by decide,
   C10_empty_room_name true "  " _ [] (fun _ => none) (by decide)⟩

theorem tobytes_cons (s : Int) (ss : List Int) :
    tobytes_int16 (s :: ss) = int16ToBytes s ++ tobytes_int16 ss := by
  simp [tobytes_int16]

theorem tobytes_append (a b : List Int) :
    tobytes_int16 (a ++ b) = tobytes_int16 a ++ tobytes_int16 b := by
  simp [tobytes_int16]

theorem int16ToBytes_zero : int16ToBytes 0 = [0, 0] := by decide

theorem tobytes_replicate_zero (k : Nat) :
    tobytes_int16 (List.replicate k (0 : Int)) =
      List.replicate (2 * k) (0 : Fin 256) := by
  induction k with
  | zero => rfl
  | succ n ih =>
    rw [List.replicate_succ, tobytes_cons, ih, int16ToBytes_zero,
      show 2 * (n + 1) = 2 + 2 * n by ring, List.replicate_add]
    rfl

theorem int16_roundtrip (lo hi : Fin 256) :
    int16ToBytes (int16OfBytes lo hi) = [lo, hi] := by
  obtain ⟨l, hl⟩ := lo
  obtain ⟨h, hh⟩ := hi
  by_cases hc : l + 256 * h < 32768 <;>
    simp only [int16OfBytes, int16ToBytes, hc, if_true, if_false,
      List.cons.injEq, and_true, Fin.mk.injEq, ite_true, ite_false] <;>
    refine ⟨by omega, by omega⟩

theorem frombuffer_correct (c : List (Fin 256)) (h : 2 ∣ c.length) :
    ∃ ss, frombuffer_int16 c = some ss ∧ tobytes_int16 ss = c ∧
      2 * ss.length = c.length := by
  match c with
  | [] => exact ⟨[], rfl, rfl, rfl⟩
  | [a] => exfalso; simp at h
  | lo :: hi :: rest =>
    have h2 : 2 ∣ rest.length := by simp [List.length_cons] at h; omega
    obtain ⟨ss, h1, htb, hlen⟩ := frombuffer_correct rest h2
    refine ⟨int16OfBytes lo hi :: ss, ?_, ?_, ?_⟩
    · simp [frombuffer_int16, h1]
    · rw [tobytes_cons, int16_roundtrip, htb]; rfl
    · simp [List.length_cons]; omega

theorem processChunk_spec (c : List (Fin 256)) (h2 : 2 ∣ c.length)
    (hle : c.length ≤ bytes_per_frame) :
    processChunk c = some
      { data := c ++ List.replicate (bytes_per_frame - c.length) 0,
        sample_rate := 24000, num_channels := 1,
        samples_per_channel := frame_size } := by
  obtain ⟨ss, h1, htb, hlen⟩ := frombuffer_correct c h2
  have hbpf : bytes_per_frame = 960 := rfl
  have hfs : frame_size = 480 := rfl
  have hss : ss.length ≤ frame_size := by omega
  by_cases hlt : ss.length < frame_size
  · have hcount : 2 * (frame_size - ss.length) = bytes_per_frame - c.length := by
      omega
    simp only [processChunk, h1, if_pos hlt]
    rw [tobytes_append, htb, tobytes_replicate_zero, hcount]
  · have hc960 : c.length = bytes_per_frame := by omega
    simp only [processChunk, h1, if_neg hlt]
    rw [htb, hc960]
    simp

theorem readChunksAux_length (fuel : Nat) :
    ∀ bs : List (Fin 256), bs.length ≤ fuel →
      (readChunksAux fuel bs).length =
        (bs.length + (bytes_per_frame - 1)) / bytes_per_frame := by
  have hbpf : bytes_per_frame = 960 := rfl
  induction fuel with
  | zero =>
    intro bs h
    have : bs = [] := List.length_eq_zero.mp (by omega)
    subst this
    simp only [readChunksAux, List.length_nil]
    decide
  | succ n ih =>
    intro bs h
    match bs with
    | [] =>
      simp only [readChunksAux, List.length_nil]
      decide
    | a :: as =>
      have hlen : (a :: as).length ≤ n + 1 := h
      have hdrop : ((a :: as).drop bytes_per_frame).length ≤ n := by
        rw [List.length_drop, hbpf]
        simp only [List.length_cons] at hlen ⊢
        omega
      rw [show readChunksAux (n + 1) (a :: as) =
          (a :: as).take bytes_per_frame ::
            readChunksAux n ((a :: as).drop bytes_per_frame) from rfl]
      rw [List.length_cons, ih _ hdrop, List.length_drop, hbpf]
      simp only [List.length_cons]
      omega

theorem readChunksAux_getq (fuel : Nat) :
    ∀ (bs : List (Fin 256)) (i : Nat),
      i < (readChunksAux fuel bs).length →
      (readChunksAux fuel bs)[i]? =
        some ((bs.drop (bytes_per_frame * i)).take bytes_per_frame) := by
  induction fuel with
  | zero =>
    intro bs i hi
    simp [readChunksAux] at hi
  | succ n ih =>
    intro bs i hi
    match bs with
    | [] => simp [readChunksAux] at hi
    | a :: as =>
      rw [show readChunksAux (n + 1) (a :: as) =
          (a :: as).take bytes_per_frame ::
            readChunksAux n ((a :: as).drop bytes_per_frame) from rfl] at hi ⊢
      match i with
      | 0 => simp
      | i + 1 =>
        have hi' : i < (readChunksAux n
            ((a :: as).drop bytes_per_frame)).length := by
          simpa using hi
        rw [List.getElem?_cons_succ, ih _ i hi', List.drop_drop,
          show bytes_per_frame * (i + 1) =
            bytes_per_frame * i + bytes_per_frame from by ring,
          Nat.add_comm bytes_per_frame (bytes_per_frame * i)]

theorem readChunks_getq (bs : List (Fin 256)) (i : Nat)
    (hi : i < (readChunks bs).length) :
    (readChunks bs).get ⟨i, hi⟩ =
      (bs.drop (bytes_per_frame * i)).take bytes_per_frame := by
  have h : (readChunks bs)[i]? =
      some ((bs.drop (bytes_per_frame * i)).take bytes_per_frame) :=
    readChunksAux_getq bs.length bs i hi
  rw [List.getElem?_eq_getElem hi] at h
  rw [List.get_eq_getElem]
  exact Option.some.inj h

theorem readChunksAux_mem (fuel : Nat) :
    ∀ bs : List (Fin 256), bs.length ≤ fuel → 2 ∣ bs.length →
      ∀ c ∈ readChunksAux fuel bs,
        2 ∣ c.length ∧ c.length ≤ bytes_per_frame := by
  have hbpf : bytes_per_frame = 960 := rfl
  induction fuel with
  | zero =>
    intro bs h h2 c hc
    have : bs = [] := List.length_eq_zero.mp (by omega)
    subst this
    simp [readChunksAux] at hc
  | succ n ih =>
    intro bs h h2 c hc
    match bs with
    | [] => simp [readChunksAux] at hc
    | a :: as =>
      have hlen : (a :: as).length ≤ n + 1 := h
      have hlen2 : 2 ∣ (a :: as).length := h2
      rw [show readChunksAux (n + 1) (a :: as) =
          (a :: as).take bytes_per_frame ::
            readChunksAux n ((a :: as).drop bytes_per_frame) from rfl] at hc
      rcases List.mem_cons.mp hc with rfl | hc
      · rw [List.length_take, hbpf]
        constructor
        · simp only [List.length_cons] at hlen2
          omega
        · omega
      · refine ih _ ?_ ?_ c hc <;>
          rw [List.length_drop, hbpf] <;>
          simp only [List.length_cons] at hlen hlen2 ⊢ <;>
          omega

theorem readChunks_length (bs : List (Fin 256)) :
    (readChunks bs).length =
      (bs.length + (bytes_per_frame - 1)) / bytes_per_frame :=
  readChunksAux_length bs.length bs (Nat.le_refl _)

theorem readChunks_mem (bs : List (Fin 256)) (h2 : 2 ∣ bs.length) :
    ∀ c ∈ readChunks bs, 2 ∣ c.length ∧ c.length ≤ bytes_per_frame :=
  readChunksAux_mem bs.length bs (Nat.le_refl _) h2

theorem playChunks_ok (cs : List (List (Fin 256)))
    (h : ∀ c ∈ cs, 2 ∣ c.length ∧ c.length ≤ bytes_per_frame) :
    ∀ i, playChunks (fun _ => true) cs i =
      (none, cs.map fun c =>
        { data := c ++ List.replicate (bytes_per_frame - c.length) 0,
          sample_rate := 24000, num_channels := 1,
          samples_per_channel := frame_size }) := by
  induction cs with
  | nil => intro i; rfl
  | cons c cs ih =>
    intro i
    obtain ⟨h1, h2⟩ := h c (List.mem_cons_self c cs)
    simp only [playChunks, processChunk_spec c h1 h2,
      ih (fun d hd => h d (List.mem_cons_of_mem _ hd)) (i + 1),
      if_true, List.map_cons]

/-- Helper: a `play_file` call on a connected session, with an
all-accepting sink and a stream of whole 16-bit samples, returns normally
and delivers one zero-padded frame per read chunk. -/
theorem play_file_ok (s : AudioStreamer) (stream : List (Fin 256))
    (returncode : Int) (hc : s.is_connected = true)
    (h2 : 2 ∣ stream.length) :
    s.play_file stream returncode (fun _ => true) =
      { outcome := none,
        frames := (readChunks stream).map fun c =>
          { data := c ++ List.replicate (bytes_per_frame - c.length) 0,
            sample_rate := 24000, num_channels := 1,
            samples_per_channel := frame_size },
        proc := some ProcState.terminated, state := s } := by
  simp only [AudioStreamer.play_file, hc, if_true]
  rw [playChunks_ok _ (readChunks_mem stream h2) 0]

theorem readChunks_getElem (bs : List (Fin 256)) (i : Nat)
    (hi : i < (readChunks bs).length) :
    (readChunks bs)[i] =
      (bs.drop (bytes_per_frame * i)).take bytes_per_frame := by
  have h := readChunks_getq bs i hi
  rwa [List.get_eq_getElem] at h

/-- C1: on a connected session with an accepting sink, `play_file` on a
decoder byte stream of length `L` (a whole number of 16-bit samples, as
the `s16le` decoder emits) returns normally and pushes exactly
`⌈L / bytes_per_frame⌉` AudioFrames to the sink; the i-th frame's data is
the i-th `bytes_per_frame`-byte slice of the stream, padded with zero
bytes (silence) up to `bytes_per_frame` — so every frame except possibly
the last is entirely real data, only a final partial slice gets a zero
tail, a stream whose length is a multiple of the frame size gets no padded
frame, and an empty stream yields no frames. -/
theorem C1_frame_chunker (s : AudioStreamer) (stream : List (Fin 256))
    (returncode : Int) (hc : s.is_connected = true)
    (h2 : 2 ∣ stream.length) :
    (s.play_file stream returncode (fun _ => true)).outcome = none ∧
    (s.play_file stream returncode (fun _ => true)).frames.length =
      (stream.length + (bytes_per_frame - 1)) / bytes_per_frame ∧
    ∀ i (hi : i <
        (s.play_file stream returncode (fun _ => true)).frames.length),
      ((s.play_file stream returncode (fun _ => true)).frames.get
          ⟨i, hi⟩).data =
        (stream.drop (bytes_per_frame * i)).take bytes_per_frame ++
          List.replicate
            (bytes_per_frame - (stream.length - bytes_per_frame * i)) 0 := by
  rw [play_file_ok s stream returncode hc h2]
  refine ⟨rfl, by simp [readChunks_length], ?_⟩
  intro i hi
  simp only [List.get_eq_getElem, List.getElem_map]
  rw [readChunks_getElem]
  congr 1
  rw [List.length_take, List.length_drop]
  have hbpf : bytes_per_frame = 960 := rfl
  congr 1
  omega

/-- C1 witness: a connected streamer and a 4-byte stream (two samples):
one frame, 4 real bytes and 956 bytes of zero padding. -/
theorem C1_witness :
    (({ room_name := "r", is_connected := true, is_publishing := true,
        current_track := some 0 } : AudioStreamer).is_connected = true ∧
     2 ∣ (List.replicate 4 (0 : Fin 256)).length) ∧
    ((({ room_name := "r", is_connected := true, is_publishing := true,
         current_track := some 0 } : AudioStreamer).play_file
         (List.replicate 4 (0 : Fin 256)) 0 (fun _ => true)).outcome =
       none ∧
     (({ room_name := "r", is_connected := true, is_publishing := true,
         current_track := some 0 } : AudioStreamer).play_file
         (List.replicate 4 (0 : Fin 256)) 0 (fun _ => true)).frames.length =
       ((List.replicate 4 (0 : Fin 256)).length + (bytes_per_frame - 1)) /
         bytes_per_frame ∧
     ∀ i (hi : i <
         (({ room_name := "r", is_connected := true, is_publishing := true,
             current_track := some 0 } : AudioStreamer).play_file
             (List.replicate 4 (0 : Fin 256)) 0
             (fun _ => true)).frames.length),
       ((({ room_name := "r", is_connected := true, is_publishing := true,
            current_track := some 0 } : AudioStreamer).play_file
            (List.replicate 4 (0 : Fin 256)) 0
            (fun _ => true)).frames.get ⟨i, hi⟩).data =
         ((List.replicate 4 (0 : Fin 256)).drop
             (bytes_per_frame * i)).take bytes_per_frame ++
           List.replicate
             (bytes_per_frame -
               ((List.replicate 4 (0 : Fin 256)).length -
                 bytes_per_frame * i)) 0) :=
  ⟨⟨rfl, by decide⟩,
   C1_frame_chunker _ (List.replicate 4 (0 : Fin 256)) 0 rfl (by decide)⟩

set_option maxRecDepth 20000 in
/-- C2 counterexample: the spec scenario — the decoder process exits with
status 1 after emitting 300 bytes.  `play_file` does deliver the one frame
obtainable from those bytes, but then returns success (`outcome = none`):
the non-zero exit status is never consulted and no stream-decode error is
reported, so the claim is false. -/
theorem C2_counterexample :
    (({ room_name := "r", is_connected := true, is_publishing := true,
        current_track := some 0 } : AudioStreamer).play_file
        (List.replicate 300 0) 1 (fun _ => true)).outcome = none ∧
    (({ room_name := "r", is_connected := true, is_publishing := true,
        current_track := some 0 } : AudioStreamer).play_file
        (List.replicate 300 0) 1 (fun _ => true)).frames.length = 1 := by
  constructor <;> decide

/-- C2 amended: when the decoder process exits with non-zero status,
`play_file` still delivers to the sink every frame obtainable from the
bytes already read, but then returns success: the exit status plays no
role whatsoever in `play_file`'s behaviour (`process.wait()`'s result is
discarded), so no stream-decode error is reported to the caller. -/
theorem C2_exit_status_ignored (s : AudioStreamer)
    (stream : List (Fin 256)) (returncode returncode' : Int)
    (sink : Nat → Bool) (hrc : returncode ≠ 0)
    (hc : s.is_connected = true) (h2 : 2 ∣ stream.length) :
    s.play_file stream returncode sink =
      s.play_file stream returncode' sink ∧
    s.play_file stream returncode (fun _ => true) =
      { outcome := none,
        frames := (readChunks stream).map fun c =>
          { data := c ++ List.replicate (bytes_per_frame - c.length) 0,
            sample_rate := 24000, num_channels := 1,
            samples_per_channel := frame_size },
        proc := some ProcState.terminated, state := s } :=
  ⟨rfl, play_file_ok s stream returncode hc h2⟩

set_option maxRecDepth 20000 in
/-- C2 amended witness: exit status 1 after 300 bytes. -/
theorem C2_witness :
    ((1 : Int) ≠ 0 ∧
     ({ room_name := "r", is_connected := true, is_publishing := true,
        current_track := some 0 } : AudioStreamer).is_connected = true ∧
     2 ∣ (List.replicate 300 (0 : Fin 256)).length) ∧
    (({ room_name := "r", is_connected := true, is_publishing := true,
        current_track := some 0 } : AudioStreamer).play_file
        (List.replicate 300 (0 : Fin 256)) 1 (fun _ => true) =
      ({ room_name := "r", is_connected := true, is_publishing := true,
         current_track := some 0 } : AudioStreamer).play_file
        (List.replicate 300 (0 : Fin 256)) 0 (fun _ => true) ∧
     ({ room_name := "r", is_connected := true, is_publishing := true,
        current_track := some 0 } : AudioStreamer).play_file
        (List.replicate 300 (0 : Fin 256)) 1 (fun _ => true) =
      { outcome := none,
        frames := (readChunks (List.replicate 300 (0 : Fin 256))).map
          fun c =>
            { data := c ++ List.replicate (bytes_per_frame - c.length) 0,
              sample_rate := 24000, num_channels := 1,
              samples_per_channel := frame_size },
        proc := some ProcState.terminated,
        state := { room_name := "r", is_connected := true,
                   is_publishing := true, current_track := some 0 } }) :=
  ⟨⟨by decide, rfl, by decide⟩,
   C2_exit_status_ignored _ (List.replicate 300 (0 : Fin 256)) 1 0
     (fun _ => true) (by decide) rfl (by decide)⟩
